import Mathlib

/-!
Shallow embedding of the entity lifecycle manager
(`src/packages/core/content-manager/server/src/services/entity-manager.ts`).

JavaScript values are modelled by `JSVal`; attribute bags (JS objects) by
association lists; entries carry the distinguished columns `id`,
`documentId`, `entryId` and the nullable `publishedAt` timestamp of the
data model, plus an attribute bag.  Each operation of the manager is a
pure function that returns, alongside its result, an explicit trace of
the external effects it issued (bulk updates, single updates, lifecycle
events), so the theorems can speak about what was and was not written.
External collaborators (entity validator, deep-relations-count
post-processor, webhook feature flag) are passed in as parameters; the
document store is a concrete list of rows with the documented
`updateMany`/`findMany` filter semantics.
-/

namespace EntityManager

/-- JavaScript values as far as the entity manager inspects them:
`null`, `undefined`, booleans, (integer) numbers, strings and `Date`
objects (a `Date` is represented by its numeric timestamp). -/
inductive JSVal where
  | null
  | undefined
  | bool (b : Bool)
  | num (n : Int)
  | str (s : String)
  | date (t : Nat)
  deriving DecidableEq, Repr

/-- JavaScript truthiness: `null`, `undefined`, `false`, `0` and the
empty string are falsy; `Date` objects are always truthy. -/
def JSVal.truthy : JSVal → Bool
  | .null => false
  | .undefined => false
  | .bool b => b
  | .num n => n != 0
  | .str s => s != ""
  | .date _ => true

/-- A JavaScript object viewed as an association list of fields. -/
abbrev Obj := List (String × JSVal)

/-- Property read `o[k]`: the first binding of `k`, `undefined` if absent. -/
def getF (o : Obj) (k : String) : JSVal :=
  match o.find? (fun p => p.1 = k) with
  | some p => p.2
  | none => .undefined

/-- Whether the object has a binding for key `k`. -/
def hasKey (o : Obj) (k : String) : Bool :=
  o.any (fun p => p.1 = k)

/-- Replace every binding of key `k` by value `v` (bindings of other keys
are untouched). -/
def replaceKey : Obj → String → JSVal → Obj
  | [], _, _ => []
  | p :: rest, k, v =>
    (if p.1 = k then (k, v) else p) :: replaceKey rest k v

/-- Property write `o[k] = v`: overwrite in place when the key exists
(keeping its position, as JS objects do), append otherwise. -/
def setF (o : Obj) (k : String) (v : JSVal) : Obj :=
  if hasKey o k then replaceKey o k v else o ++ [(k, v)]

/-- Property delete / lodash `omit`: drop every binding of key `k`. -/
def delF (o : Obj) (k : String) : Obj :=
  o.filter (fun p => p.1 ≠ k)

/-- `contentTypes.constants.PUBLISHED_AT_ATTRIBUTE`. -/
def PUBLISHED_AT_ATTRIBUTE : String := "publishedAt"

/-- `ALLOWED_WEBHOOK_EVENTS.ENTRY_PUBLISH`. -/
def ENTRY_PUBLISH : String := "entry.publish"

/-- `ALLOWED_WEBHOOK_EVENTS.ENTRY_UNPUBLISH`. -/
def ENTRY_UNPUBLISH : String := "entry.unpublish"

/-- An entry (row) of the document store: the distinguished identifier
columns, the nullable `publishedAt` timestamp (`none` = draft, `some t`
= published at date `t`; a stored date is a JS `Date`, hence truthy),
and the remaining attribute bag. -/
structure Entry where
  id : JSVal
  documentId : JSVal := .undefined
  entryId : JSVal := .undefined
  publishedAt : Option Nat := none
  attrs : Obj := []
  deriving DecidableEq, Repr

/-- The JS truthiness test `entity[PUBLISHED_AT_ATTRIBUTE]` on the
nullable timestamp column: `null` is falsy, a `Date` is truthy. -/
def Entry.publishedAtTruthy (e : Entry) : Bool :=
  e.publishedAt.isSome

/-- A lifecycle event `{ model, entry }` emitted on the event hub
(`emitEvent`); the model is fixed by the content type, so we record the
event name and the entry payload. -/
structure LifecycleEvent where
  name : String
  entry : Entry
  deriving DecidableEq, Repr

/-- `errors.ApplicationError` carrying its message token. -/
structure ApplicationError where
  message : String
  deriving DecidableEq, Repr

/-- A `ValidationError` raised by the external entity validator. -/
structure ValidationError where
  message : String
  deriving DecidableEq, Repr

/-- A JavaScript runtime error (`TypeError` on a null property read). -/
inductive JsError where
  | typeError (msg : String)
  deriving DecidableEq, Repr

/--
`mapEntity` (entity-manager.ts:59-68): when `entity.documentId` is
truthy, move the internal row id to `entryId`, promote `documentId` to
`id` and delete `documentId`; otherwise return the entity unchanged.
-/
def mapEntity (e : Entry) : Entry :=
  if e.documentId.truthy then
    { e with entryId := e.id, id := e.documentId, documentId := .undefined }
  else
    e

/-- The property read `entity.documentId` performed by `mapEntity`
throws a `TypeError` when the entity is `null`/`undefined`; this is the
nullable-argument behaviour of `mapEntity` as invoked by `findOne` on
the raw lookup result. -/
def mapEntityNullable : Option Entry → Except JsError (Option Entry)
  | none => .error (.typeError "Cannot read properties of null")
  | some e => .ok (some (mapEntity e))

/-- Pagination metadata as assembled by `findPage`. -/
structure Pagination where
  page : Int
  pageSize : Int
  pageCount : Int
  total : Nat
  deriving DecidableEq, Repr

/-- A list response `{ results, pagination }`. -/
structure ListResponse where
  results : List Entry
  pagination : Pagination
  deriving DecidableEq, Repr

/-- `mapEntitiesResponse` (entity-manager.ts:76-85) on a response that
has a `results` field: map every result through `mapEntity` (in order,
as `mapAsync` does) and spread the rest of the response unchanged. -/
def mapEntitiesResponse (r : ListResponse) : ListResponse :=
  { r with results := r.results.map mapEntity }

/-- JS `Number(s)` on a string: the empty (or all-blank) string coerces
to `0`, an integer numeral parses, anything else is `NaN` (`none`). -/
def jsParseNumber (s : String) : Option Int :=
  if s.trim = "" then some 0 else s.trim.toInt?

/-- JS `Number(v)` coercion; `none` stands for `NaN`. -/
def toNumber : JSVal → Option Int
  | .undefined => none
  | .null => some 0
  | .bool b => some (if b then 1 else 0)
  | .num n => some n
  | .str s => jsParseNumber s
  | .date t => some t

/-- The JS expression `x || d` on a coerced number: `NaN` and `0` are
falsy and fall back to the default. -/
def jsOr (x : Option Int) (d : Int) : Int :=
  match x with
  | none => d
  | some n => if n = 0 then d else n

/-- `Math.ceil(a / b)` on integers (for nonzero `b`), via
`⌈a/b⌉ = -⌊(-a)/b⌋`. -/
def ceilDivInt (a b : Int) : Int :=
  -((-a).fdiv b)

/-- The `page`/`pageSize` members of the options bag handed to
`findPage` (`.undefined` when unspecified). -/
structure FindPageOpts where
  page : JSVal := .undefined
  pageSize : JSVal := .undefined
  deriving DecidableEq, Repr

/--
`findPage` (entity-manager.ts:96-121): coerce `page` and `pageSize`
with `Number(...) || default`, take the rows and total returned by the
store's concurrent `findMany`/`count` queries, assemble
`{results, pagination}` with `pageCount = Math.ceil(total / pageSize)`,
and map the response through `mapEntitiesResponse`.
-/
def findPage (opts : FindPageOpts) (documents : List Entry) (total : Nat) :
    ListResponse :=
  let page := jsOr (toNumber opts.page) 1
  let pageSize := jsOr (toNumber opts.pageSize) 10
  mapEntitiesResponse
    { results := documents
      pagination :=
        { page := page
          pageSize := pageSize
          pageCount := ceilDivInt (total : Int) pageSize
          total := total } }

/-- `findOne` (entity-manager.ts:123-131): return the store's lookup
result passed through `mapEntity` (`.then((entity) => this.mapEntity(entity, uid))`). -/
def findOne (lookupResult : Option Entry) : Except JsError (Option Entry) :=
  mapEntityNullable lookupResult

/-- A `Date` timestamp supplied in a data bag is stored as a published
date; `null` (or any non-date value, which the datetime column rejects
to null) stores as `none`. -/
def decodeTimestamp : JSVal → Option Nat
  | .date t => some t
  | _ => none

/-- Store write of one data-bag field onto a row: the distinguished
columns are typed, every other key lands in the attribute bag. -/
def setEntryField (e : Entry) (p : String × JSVal) : Entry :=
  if p.1 = "id" then { e with id := p.2 }
  else if p.1 = "documentId" then { e with documentId := p.2 }
  else if p.1 = "entryId" then { e with entryId := p.2 }
  else if p.1 = PUBLISHED_AT_ATTRIBUTE then
    { e with publishedAt := decodeTimestamp p.2 }
  else { e with attrs := setF e.attrs p.1 p.2 }

/-- Store `update` contract (external document store): merge the data
bag into the row field by field. -/
def applyPatch (e : Entry) (data : Obj) : Entry :=
  data.foldl setEntryField e

/-- Store `create` contract (external document store): build a fresh
row carrying exactly the supplied data-bag values. -/
def entryOfData (d : Obj) : Entry :=
  applyPatch { id := .undefined } d

/--
`create` (entity-manager.ts:133-151): copy the body, force
`publishedAt = null` on the copy, send it to the store's `create`, map
the created row through `mapEntity`, and post-process with
`getDeepRelationsCount` when the webhook populate-relations flag is on.
`dataSent` is the data bag handed to the store and `createdEntity` the
row the store writes.
-/
structure CreateRun where
  dataSent : Obj
  createdEntity : Entry
  result : Entry
  deriving Repr

def create (body : Obj) (countRelationsEnabled : Bool)
    (deepRelationsCount : Entry → Entry) : CreateRun :=
  let publishData := setF body PUBLISHED_AT_ATTRIBUTE .null
  let createdEntity := entryOfData publishData
  let entity := mapEntity createdEntity
  { dataSent := publishData
    createdEntity := createdEntity
    result := if countRelationsEnabled then deepRelationsCount entity else entity }

/--
`update` (entity-manager.ts:153-173): drop the `publishedAt` field from
the body (`omitPublishedAtField`), delete the `id` field, send the rest
to the store's `update` for the document's id, map the updated row, and
post-process under the flag.  `dataSent` is the patch handed to the
store and `updatedEntity` the row after the store merges it.
-/
structure UpdateRun where
  dataSent : Obj
  updatedEntity : Entry
  result : Entry
  deriving Repr

def update (document : Entry) (body : Obj) (countRelationsEnabled : Bool)
    (deepRelationsCount : Entry → Entry) : UpdateRun :=
  let publishData := delF (delF body PUBLISHED_AT_ATTRIBUTE) "id"
  let updatedEntity := applyPatch document publishData
  let mapped := mapEntity updatedEntity
  { dataSent := publishData
    updatedEntity := updatedEntity
    result := if countRelationsEnabled then deepRelationsCount mapped else mapped }

/--
`unpublish` (entity-manager.ts:316-338) as a run record: `result` is the
returned value or the thrown `ApplicationError`; `updatesIssued` lists
the `(id, data)` store updates performed; `updatedEntity` is the row
after the store update; `events` the lifecycle events emitted;
`populateBuilt` whether `buildDeepPopulate` was reached.
-/
structure UnpublishRun where
  result : Except ApplicationError Entry
  updatesIssued : List (JSVal × Obj)
  updatedEntity : Option Entry
  events : List LifecycleEvent
  populateBuilt : Bool

def unpublish (entity : Entry) (body : Obj) (countRelationsEnabled : Bool)
    (deepRelationsCount : Entry → Entry) : UnpublishRun :=
  if entity.publishedAtTruthy then
    let data := setF body PUBLISHED_AT_ATTRIBUTE .null
    let updatedEntity := applyPatch entity data
    let mappedEntity := mapEntity updatedEntity
    { result := .ok (if countRelationsEnabled then deepRelationsCount mappedEntity
        else mappedEntity)
      updatesIssued := [(entity.id, data)]
      updatedEntity := some updatedEntity
      events := [{ name := ENTRY_UNPUBLISH, entry := updatedEntity }]
      populateBuilt := true }
  else
    { result := .error { message := "already.draft" }
      updatesIssued := []
      updatedEntity := none
      events := []
      populateBuilt := false }

/-- One `updateMany({where: {id: {$in: ids}}, data})` call issued to the
bulk query primitive: the id set of the filter and the `publishedAt`
value it writes. -/
structure BulkUpdate where
  ids : List JSVal
  publishedAt : Option Nat
  deriving DecidableEq, Repr

/-- Bulk primitive contract: set `publishedAt` on every row whose id is
in the filter set; the affected-row count is the number of matches. -/
def updateManyStore (store : List Entry) (ids : List JSVal)
    (pub : Option Nat) : List Entry × Nat :=
  (store.map (fun e => if ids.contains e.id then { e with publishedAt := pub } else e),
    (store.filter (fun e => ids.contains e.id)).length)

/-- Store `findMany` with an `{id: {$in: ids}}` filter. -/
def findManyByIds (store : List Entry) (ids : List JSVal) : List Entry :=
  store.filter (fun e => ids.contains e.id)

/-- Sequencing of `Promise.all(entities.map(validateEntityCreation))`:
succeeds when every validation succeeds, otherwise rejects with a
failing entity's error (taken in list order). -/
def validateAll (validate : Entry → Except ValidationError Unit) :
    List Entry → Except ValidationError Unit
  | [] => .ok ()
  | e :: rest =>
    match validate e with
    | .error err => .error err
    | .ok _ => validateAll validate rest

/-- Whether an external validation call succeeded. -/
def isSuccess {α : Type} (r : Except ValidationError α) : Bool :=
  match r with
  | .ok _ => true
  | .error _ => false

/--
A batch run (`publishMany`, entity-manager.ts:243-284): `result` is the
returned value (`none` models the JS `null` returned for an empty batch,
`some n` the affected-row count) or the propagated `ValidationError`;
`store` is the document store after the run; `updatesIssued` the bulk
updates sent to `strapi.db.query(uid).updateMany`; `events` the
lifecycle events emitted.
-/
structure BatchRun where
  result : Except ValidationError (Option Nat)
  store : List Entry
  updatesIssued : List BulkUpdate
  events : List LifecycleEvent

def publishMany (entities : List Entry)
    (validate : Entry → Except ValidationError Unit)
    (store : List Entry) (now : Nat) : BatchRun :=
  if entities.length = 0 then
    { result := .ok none, store := store, updatesIssued := [], events := [] }
  else
    match validateAll validate entities with
    | .error err =>
      { result := .error err, store := store, updatesIssued := [], events := [] }
    | .ok _ =>
      let entitiesToPublish :=
        (entities.filter (fun e => !e.publishedAtTruthy)).map (fun e => e.id)
      let updated := updateManyStore store entitiesToPublish (some now)
      let publishedEntities := findManyByIds updated.1 entitiesToPublish
      { result := .ok (some updated.2)
        store := updated.1
        updatesIssued := [{ ids := entitiesToPublish, publishedAt := some now }]
        events := publishedEntities.map
          (fun e => { name := ENTRY_PUBLISH, entry := e }) }

/-- `unpublishMany` (entity-manager.ts:286-314): symmetric batch run,
no validation gate, filters to currently published entries and
bulk-sets `publishedAt = null`. -/
def unpublishMany (entities : List Entry) (store : List Entry) : BatchRun :=
  if entities.length = 0 then
    { result := .ok none, store := store, updatesIssued := [], events := [] }
  else
    let entitiesToUnpublish :=
      (entities.filter (fun e => e.publishedAtTruthy)).map (fun e => e.id)
    let updated := updateManyStore store entitiesToUnpublish none
    let unpublishedEntities := findManyByIds updated.1 entitiesToUnpublish
    { result := .ok (some updated.2)
      store := updated.1
      updatesIssued := [{ ids := entitiesToUnpublish, publishedAt := none }]
      events := unpublishedEntities.map
        (fun e => { name := ENTRY_UNPUBLISH, entry := e }) }

/-! ### Helper lemmas about objects and patches -/

theorem setEntryField_publishedAt (e : Entry) (p : String × JSVal)
    (h : p.1 ≠ PUBLISHED_AT_ATTRIBUTE) :
    (setEntryField e p).publishedAt = e.publishedAt := by
  unfold setEntryField
  split_ifs <;> simp_all

theorem setEntryField_id (e : Entry) (p : String × JSVal)
    (h : p.1 ≠ "id") :
    (setEntryField e p).id = e.id := by
  unfold setEntryField
  split_ifs <;> simp_all

theorem applyPatch_publishedAt_of_no_key (data : Obj) :
    ∀ e : Entry, (∀ p ∈ data, p.1 ≠ PUBLISHED_AT_ATTRIBUTE) →
      (applyPatch e data).publishedAt = e.publishedAt := by
  induction data with
  | nil => intro e _; rfl
  | cons p rest ih =>
    intro e h
    have hstep : applyPatch e (p :: rest) = applyPatch (setEntryField e p) rest := rfl
    rw [hstep, ih (setEntryField e p) (fun q hq => h q (List.mem_cons_of_mem p hq)),
      setEntryField_publishedAt e p (h p (List.mem_cons_self p rest))]

theorem applyPatch_id_of_no_key (data : Obj) :
    ∀ e : Entry, (∀ p ∈ data, p.1 ≠ "id") →
      (applyPatch e data).id = e.id := by
  induction data with
  | nil => intro e _; rfl
  | cons p rest ih =>
    intro e h
    have hstep : applyPatch e (p :: rest) = applyPatch (setEntryField e p) rest := rfl
    rw [hstep, ih (setEntryField e p) (fun q hq => h q (List.mem_cons_of_mem p hq)),
      setEntryField_id e p (h p (List.mem_cons_self p rest))]

theorem applyPatch_pub_all_null (data : Obj) :
    ∀ e : Entry, (∀ p ∈ data, p.1 = PUBLISHED_AT_ATTRIBUTE → p.2 = JSVal.null) →
      (applyPatch e data).publishedAt =
        if hasKey data PUBLISHED_AT_ATTRIBUTE then none else e.publishedAt := by
  induction data with
  | nil => intro e _; simp [applyPatch, hasKey]
  | cons p rest ih =>
    intro e h
    have hstep : applyPatch e (p :: rest) = applyPatch (setEntryField e p) rest := rfl
    have htail : ∀ q ∈ rest, q.1 = PUBLISHED_AT_ATTRIBUTE → q.2 = JSVal.null :=
      fun q hq => h q (List.mem_cons_of_mem p hq)
    by_cases hp : p.1 = PUBLISHED_AT_ATTRIBUTE
    · have hv : p.2 = JSVal.null := h p (List.mem_cons_self p rest) hp
      have hset : (setEntryField e p).publishedAt = none := by
        unfold setEntryField
        rw [hp, hv]
        simp [PUBLISHED_AT_ATTRIBUTE, decodeTimestamp]
      rw [hstep, ih (setEntryField e p) htail]
      simp [hasKey, hp, hset]
    · have hset : (setEntryField e p).publishedAt = e.publishedAt :=
        setEntryField_publishedAt e p hp
      have hd : (decide (p.1 = PUBLISHED_AT_ATTRIBUTE)) = false := by simp [hp]
      rw [hstep, ih (setEntryField e p) htail, hset]
      show _ = if (decide (p.1 = PUBLISHED_AT_ATTRIBUTE) ||
        rest.any fun q => decide (q.1 = PUBLISHED_AT_ATTRIBUTE)) = true then none
          else e.publishedAt
      rw [hd, Bool.false_or]
      rfl

theorem hasKey_replaceKey (data : Obj) (k : String) (v : JSVal) :
    hasKey (replaceKey data k v) k = hasKey data k := by
  induction data with
  | nil => rfl
  | cons p rest ih =>
    by_cases hp : p.1 = k
    · simp [replaceKey, hasKey, hp]
    · simp only [replaceKey, hasKey, List.any_cons, if_neg hp] at ih ⊢
      simp [hp, ih]

theorem replaceKey_val (data : Obj) (k : String) (v : JSVal) :
    ∀ p ∈ replaceKey data k v, p.1 = k → p.2 = v := by
  induction data with
  | nil => intro p hp; simp [replaceKey] at hp
  | cons q rest ih =>
    intro p hp hk
    simp only [replaceKey, List.mem_cons] at hp
    rcases hp with hp | hp
    · by_cases hq : q.1 = k
      · rw [hp]; simp [hq]
      · rw [if_neg hq] at hp
        exact absurd (hp ▸ hk) hq
    · exact ih p hp hk

theorem forall_ne_of_not_hasKey (data : Obj) (k : String)
    (h : hasKey data k = false) : ∀ p ∈ data, p.1 ≠ k := by
  intro p hp
  simp only [hasKey, List.any_eq_false, decide_eq_true_eq] at h
  exact h p hp

theorem applyPatch_setF_pub_null (e : Entry) (data : Obj) :
    (applyPatch e (setF data PUBLISHED_AT_ATTRIBUTE JSVal.null)).publishedAt = none := by
  unfold setF
  by_cases hk : hasKey data PUBLISHED_AT_ATTRIBUTE
  · rw [if_pos hk,
      applyPatch_pub_all_null _ e (replaceKey_val data PUBLISHED_AT_ATTRIBUTE JSVal.null),
      hasKey_replaceKey, if_pos hk]
  · rw [if_neg hk]
    have hprop : ∀ p ∈ data ++ [(PUBLISHED_AT_ATTRIBUTE, JSVal.null)],
        p.1 = PUBLISHED_AT_ATTRIBUTE → p.2 = JSVal.null := by
      intro p hp hkey
      rcases List.mem_append.1 hp with hp | hp
      · exact absurd hkey
          (forall_ne_of_not_hasKey data PUBLISHED_AT_ATTRIBUTE (by simpa using hk) p hp)
      · simp only [List.mem_singleton] at hp
        rw [hp]
    rw [applyPatch_pub_all_null _ e hprop]
    simp [hasKey]

theorem getF_replaceKey (data : Obj) (k : String) (v : JSVal)
    (h : hasKey data k = true) : getF (replaceKey data k v) k = v := by
  induction data with
  | nil => simp [hasKey] at h
  | cons p rest ih =>
    by_cases hp : p.1 = k
    · simp [replaceKey, getF, hp]
    · simp only [hasKey, List.any_cons, Bool.or_eq_true, decide_eq_true_eq] at h
      rcases h with h | h
      · exact absurd h hp
      · have hd : (decide (p.1 = k)) = false := by simp [hp]
        simp only [replaceKey, if_neg hp, getF, List.find?_cons, hd]
        simpa [getF] using ih h

theorem getF_append_singleton (data : Obj) (k : String) (v : JSVal)
    (h : hasKey data k = false) : getF (data ++ [(k, v)]) k = v := by
  have hnone : data.find? (fun p => p.1 = k) = none := by
    rw [List.find?_eq_none]
    intro p hp
    simpa using forall_ne_of_not_hasKey data k h p hp
  simp [getF, List.find?_append, hnone]

theorem getF_setF (data : Obj) (k : String) (v : JSVal) :
    getF (setF data k v) k = v := by
  unfold setF
  by_cases hk : hasKey data k
  · rw [if_pos hk]; exact getF_replaceKey data k v hk
  · rw [if_neg hk]; exact getF_append_singleton data k v (by simpa using hk)

theorem mem_delF (o : Obj) (k : String) :
    ∀ p ∈ delF o k, p ∈ o ∧ p.1 ≠ k := by
  intro p hp
  simp only [delF, List.mem_filter, decide_eq_true_eq] at hp
  exact hp

theorem hasKey_eq_false_of_forall (o : Obj) (k : String)
    (h : ∀ p ∈ o, p.1 ≠ k) : hasKey o k = false := by
  simp only [hasKey, List.any_eq_false, decide_eq_true_eq]
  exact h

theorem validateAll_ok (validate : Entry → Except ValidationError Unit)
    (l : List Entry) (h : ∀ e ∈ l, isSuccess (validate e) = true) :
    validateAll validate l = .ok () := by
  induction l with
  | nil => rfl
  | cons a rest ih =>
    have ha : isSuccess (validate a) = true := h a (List.mem_cons_self a rest)
    unfold validateAll
    cases hv : validate a with
    | error err => rw [hv] at ha; simp [isSuccess] at ha
    | ok u => exact ih (fun e he => h e (List.mem_cons_of_mem a he))

theorem validateAll_error (validate : Entry → Except ValidationError Unit)
    (l : List Entry) (h : ∃ e ∈ l, isSuccess (validate e) = false) :
    ∃ err, validateAll validate l = .error err := by
  induction l with
  | nil => simp at h
  | cons a rest ih =>
    cases hv : validate a with
    | error err => exact ⟨err, by simp [validateAll, hv]⟩
    | ok u =>
      obtain ⟨e, he, hf⟩ := h
      rcases List.mem_cons.1 he with he | he
      · rw [he, hv] at hf; simp [isSuccess] at hf
      · obtain ⟨err, herr⟩ := ih ⟨e, he, hf⟩
        exact ⟨err, by simp [validateAll, hv, herr]⟩

/-! ### Claim theorems -/

/-- C7: identifier remapping is idempotent (`mapEntity ∘ mapEntity = mapEntity`);
an entry with no `documentId` field passes through `mapEntity` unchanged; and
`mapEntitiesResponse` remaps exactly the elements of the result list, in
order, leaving the pagination metadata unchanged. -/
theorem mapEntity_idempotent_spec :
    (∀ e : Entry, mapEntity (mapEntity e) = mapEntity e) ∧
    (∀ e : Entry, e.documentId = JSVal.undefined → mapEntity e = e) ∧
    (∀ r : ListResponse,
      (mapEntitiesResponse r).results = r.results.map mapEntity ∧
      (mapEntitiesResponse r).pagination = r.pagination) := by
  refine ⟨?_, ?_, ?_⟩
  · intro e
    unfold mapEntity
    by_cases h : e.documentId.truthy
    · rw [if_pos h]
      rw [if_neg (by simp [JSVal.truthy])]
    · rw [if_neg h, if_neg h]
  · intro e h
    unfold mapEntity
    rw [h]
    rfl
  · intro r
    exact ⟨rfl, rfl⟩

/-- Witness for C7 at a concrete entry without a `documentId` field. -/
theorem mapEntity_idempotent_spec_witness :
    ({ id := JSVal.num 3 } : Entry).documentId = JSVal.undefined ∧
    mapEntity { id := JSVal.num 3 } = { id := JSVal.num 3 } :=
  ⟨rfl, mapEntity_idempotent_spec.2.1 { id := JSVal.num 3 } rfl⟩

/-- C4: `create` forces `publishedAt = null` on the data bag it sends to the
store, so the written entry is a draft regardless of any caller-supplied
`publishedAt`. -/
theorem create_forces_draft (body : Obj) (countRelationsEnabled : Bool)
    (deepRelationsCount : Entry → Entry) :
    getF (create body countRelationsEnabled deepRelationsCount).dataSent
        PUBLISHED_AT_ATTRIBUTE = JSVal.null ∧
    (create body countRelationsEnabled deepRelationsCount).createdEntity.publishedAt
      = none :=
  ⟨getF_setF body PUBLISHED_AT_ATTRIBUTE JSVal.null,
    applyPatch_setF_pub_null { id := JSVal.undefined } body⟩

/-- C8: `update` removes the `publishedAt` field and the `id` field from the
patch before applying it, so the stored entry keeps its `publishedAt`
(draft/published status) and its identifier. -/
theorem update_strips_protected_fields (document : Entry) (body : Obj)
    (countRelationsEnabled : Bool) (deepRelationsCount : Entry → Entry) :
    hasKey (update document body countRelationsEnabled deepRelationsCount).dataSent
        PUBLISHED_AT_ATTRIBUTE = false ∧
    hasKey (update document body countRelationsEnabled deepRelationsCount).dataSent
        "id" = false ∧
    (update document body countRelationsEnabled deepRelationsCount).updatedEntity.publishedAt
      = document.publishedAt ∧
    (update document body countRelationsEnabled deepRelationsCount).updatedEntity.id
      = document.id := by
  have hnopub : ∀ p ∈ delF (delF body PUBLISHED_AT_ATTRIBUTE) "id",
      p.1 ≠ PUBLISHED_AT_ATTRIBUTE := by
    intro p hp
    exact (mem_delF body PUBLISHED_AT_ATTRIBUTE p
      (mem_delF (delF body PUBLISHED_AT_ATTRIBUTE) "id" p hp).1).2
  have hnoid : ∀ p ∈ delF (delF body PUBLISHED_AT_ATTRIBUTE) "id", p.1 ≠ "id" :=
    fun p hp => (mem_delF (delF body PUBLISHED_AT_ATTRIBUTE) "id" p hp).2
  exact ⟨hasKey_eq_false_of_forall _ _ hnopub,
    hasKey_eq_false_of_forall _ _ hnoid,
    applyPatch_publishedAt_of_no_key _ document hnopub,
    applyPatch_id_of_no_key _ document hnoid⟩

/-- C6: `findPage` defaults `page` to 1 and `pageSize` to 10 when the numeric
parse yields `NaN` (unspecified or non-numeric input), computes
`pageCount = ceil(total / pageSize)`, and on `{page: 2, pageSize: 5}` over 12
matching rows returns pagination `{page: 2, pageSize: 5, pageCount: 3, total: 12}`. -/
theorem findPage_pagination_spec :
    (∀ (opts : FindPageOpts) (docs : List Entry) (total : Nat),
      toNumber opts.page = none → (findPage opts docs total).pagination.page = 1) ∧
    (∀ (opts : FindPageOpts) (docs : List Entry) (total : Nat),
      toNumber opts.pageSize = none →
        (findPage opts docs total).pagination.pageSize = 10) ∧
    (∀ (opts : FindPageOpts) (docs : List Entry) (total : Nat),
      (findPage opts docs total).pagination.pageCount =
        ceilDivInt (total : Int) (findPage opts docs total).pagination.pageSize) ∧
    (findPage { page := JSVal.num 2, pageSize := JSVal.num 5 } [] 12).pagination =
      { page := 2, pageSize := 5, pageCount := 3, total := 12 } := by
  refine ⟨?_, ?_, ?_, ?_⟩
  · intro opts docs total h
    show jsOr (toNumber opts.page) 1 = 1
    rw [h]
    rfl
  · intro opts docs total h
    show jsOr (toNumber opts.pageSize) 10 = 10
    rw [h]
    rfl
  · intro opts docs total
    rfl
  · decide

/-- Witness for C6 at an options bag with both members unspecified. -/
theorem findPage_pagination_spec_witness :
    toNumber (({} : FindPageOpts).page) = none ∧
    (findPage {} [] 0).pagination.page = 1 ∧
    (findPage {} [] 0).pagination.pageSize = 10 :=
  ⟨rfl, findPage_pagination_spec.1 {} [] 0 rfl,
    findPage_pagination_spec.2.1 {} [] 0 rfl⟩

/-- C9: the `Number(...) || default` coercion in `findPage` also replaces a
falsy parse result (numeric 0 or NaN) by the default, so the resolved
`pageSize` is never 0 and the `pageCount` division is never a division by
zero. -/
theorem findPage_pageSize_nonzero (opts : FindPageOpts) (docs : List Entry)
    (total : Nat) :
    (findPage opts docs total).pagination.pageSize ≠ 0 ∧
    (toNumber opts.page = some 0 → (findPage opts docs total).pagination.page = 1) ∧
    (toNumber opts.pageSize = some 0 →
      (findPage opts docs total).pagination.pageSize = 10) := by
  refine ⟨?_, ?_, ?_⟩
  · show jsOr (toNumber opts.pageSize) 10 ≠ 0
    unfold jsOr
    cases toNumber opts.pageSize with
    | none => decide
    | some n =>
      by_cases hn : n = 0
      · simp [hn]
      · simp [hn]
  · intro h
    show jsOr (toNumber opts.page) 1 = 1
    rw [h]
    rfl
  · intro h
    show jsOr (toNumber opts.pageSize) 10 = 10
    rw [h]
    rfl

/-- Witness for C9 at an options bag whose members parse to numeric 0. -/
theorem findPage_pageSize_nonzero_witness :
    toNumber (JSVal.num 0) = some 0 ∧
    (findPage { page := JSVal.num 0, pageSize := JSVal.num 0 } [] 4).pagination.pageSize ≠ 0 ∧
    (findPage { page := JSVal.num 0, pageSize := JSVal.num 0 } [] 4).pagination.page = 1 ∧
    (findPage { page := JSVal.num 0, pageSize := JSVal.num 0 } [] 4).pagination.pageSize = 10 :=
  ⟨rfl,
    (findPage_pageSize_nonzero { page := JSVal.num 0, pageSize := JSVal.num 0 } [] 4).1,
    (findPage_pageSize_nonzero { page := JSVal.num 0, pageSize := JSVal.num 0 } [] 4).2.1 rfl,
    (findPage_pageSize_nonzero { page := JSVal.num 0, pageSize := JSVal.num 0 } [] 4).2.2 rfl⟩

/-- C5 (code bug): `findOne` pipes the raw lookup result through `mapEntity`,
whose `entity.documentId` property read throws a `TypeError` when the lookup
returned `null`; so a missing entry makes `findOne` reject instead of
returning `null` as specified. -/
theorem findOne_null_lookup_throws :
    findOne none = .error (JsError.typeError "Cannot read properties of null") :=
  rfl

/-- C3: `unpublish` fails with `ApplicationError` carrying the exact token
`"already.draft"` iff the entry's `publishedAt` is null; otherwise it issues
one store update whose data is the patch merged with `publishedAt = null`
(so the updated row is a draft) and emits exactly one `unpublish` lifecycle
event. -/
theorem unpublish_spec (e : Entry) (body : Obj) (countRelationsEnabled : Bool)
    (deepRelationsCount : Entry → Entry) :
    ((unpublish e body countRelationsEnabled deepRelationsCount).result =
        .error { message := "already.draft" } ↔ e.publishedAt = none) ∧
    (e.publishedAt ≠ none →
      (unpublish e body countRelationsEnabled deepRelationsCount).updatesIssued =
        [(e.id, setF body PUBLISHED_AT_ATTRIBUTE JSVal.null)] ∧
      (unpublish e body countRelationsEnabled deepRelationsCount).updatedEntity =
        some (applyPatch e (setF body PUBLISHED_AT_ATTRIBUTE JSVal.null)) ∧
      (applyPatch e (setF body PUBLISHED_AT_ATTRIBUTE JSVal.null)).publishedAt = none ∧
      (unpublish e body countRelationsEnabled deepRelationsCount).events =
        [{ name := ENTRY_UNPUBLISH,
           entry := applyPatch e (setF body PUBLISHED_AT_ATTRIBUTE JSVal.null) }]) := by
  cases hpub : e.publishedAt with
  | none =>
    have htr : e.publishedAtTruthy = false := by
      simp [Entry.publishedAtTruthy, hpub]
    constructor
    · constructor
      · intro _; rfl
      · intro _
        unfold unpublish
        rw [htr]
        rfl
    · intro hne
      exact absurd rfl hne
  | some t =>
    have htr : e.publishedAtTruthy = true := by
      simp [Entry.publishedAtTruthy, hpub]
    have hok : (unpublish e body countRelationsEnabled deepRelationsCount).result =
        .ok (if countRelationsEnabled then
            deepRelationsCount (mapEntity (applyPatch e
              (setF body PUBLISHED_AT_ATTRIBUTE JSVal.null)))
          else
            mapEntity (applyPatch e (setF body PUBLISHED_AT_ATTRIBUTE JSVal.null))) := by
      unfold unpublish
      rw [htr]
      rfl
    constructor
    · rw [hok]
      simp
    · intro _
      refine ⟨?_, ?_, applyPatch_setF_pub_null e body, ?_⟩ <;>
        · unfold unpublish
          rw [htr]
          rfl

/-- Witness for C3 at a concrete published entry. -/
theorem unpublish_spec_witness :
    ({ id := JSVal.num 1, publishedAt := some 3 } : Entry).publishedAt ≠ none ∧
    (unpublish { id := JSVal.num 1, publishedAt := some 3 } [] false id).updatesIssued =
      [(JSVal.num 1, setF [] PUBLISHED_AT_ATTRIBUTE JSVal.null)] :=
  ⟨by simp,
    ((unpublish_spec { id := JSVal.num 1, publishedAt := some 3 } [] false id).2
      (by simp)).1⟩

/-- C10: when `unpublish` rejects an already-draft entry, it throws before
building the populate specification, before any store write and before any
event emission: the error run carries no effects at all. -/
theorem unpublish_alreadyDraft_no_effects (e : Entry) (body : Obj)
    (countRelationsEnabled : Bool) (deepRelationsCount : Entry → Entry)
    (h : e.publishedAt = none) :
    unpublish e body countRelationsEnabled deepRelationsCount =
      { result := .error { message := "already.draft" }
        updatesIssued := []
        updatedEntity := none
        events := []
        populateBuilt := false } := by
  have htr : e.publishedAtTruthy = false := by
    simp [Entry.publishedAtTruthy, h]
  unfold unpublish
  rw [htr]
  rfl

/-- Witness for C10 at a concrete draft entry. -/
theorem unpublish_alreadyDraft_no_effects_witness :
    ({ id := JSVal.num 2 } : Entry).publishedAt = none ∧
    unpublish { id := JSVal.num 2 } [] false id =
      { result := .error { message := "already.draft" }
        updatesIssued := []
        updatedEntity := none
        events := []
        populateBuilt := false } :=
  ⟨rfl, unpublish_alreadyDraft_no_effects { id := JSVal.num 2 } [] false id rfl⟩

/-- C1 as stated is false on the code: for a non-empty batch in which every
entry already has a non-null `publishedAt` (and validation succeeds),
`publishMany` still issues a bulk update against the store — the filtered id
set is empty, but `updateMany` is called unconditionally. -/
theorem publishMany_allPublished_counterexample :
    (∀ e ∈ [({ id := JSVal.num 1, publishedAt := some 5 } : Entry)],
      e.publishedAt.isSome = true) ∧
    (publishMany [{ id := JSVal.num 1, publishedAt := some 5 }]
      (fun _ => .ok ()) [{ id := JSVal.num 1, publishedAt := some 5 }]
      99).updatesIssued ≠ [] := by
  constructor
  · decide
  · decide

/-- C1 amended: for a non-empty batch where validation succeeds and every
entry is already published, `publishMany` returns 0, emits no events, and
the single bulk update it issues carries an empty id set, leaving the store
unchanged. -/
theorem publishMany_allPublished_amended (entities : List Entry)
    (validate : Entry → Except ValidationError Unit) (store : List Entry)
    (now : Nat) (hne : entities ≠ [])
    (hval : ∀ e ∈ entities, isSuccess (validate e) = true)
    (hpub : ∀ e ∈ entities, e.publishedAt.isSome = true) :
    publishMany entities validate store now =
      { result := .ok (some 0)
        store := store
        updatesIssued := [{ ids := [], publishedAt := some now }]
        events := [] } := by
  have hlen : ¬entities.length = 0 := by
    simpa [List.length_eq_zero] using hne
  have hv : validateAll validate entities = .ok () := validateAll_ok validate entities hval
  have hfilter : entities.filter (fun e => !e.publishedAtTruthy) = [] := by
    rw [List.filter_eq_nil_iff]
    intro a ha
    simp [Entry.publishedAtTruthy, hpub a ha]
  unfold publishMany
  rw [if_neg hlen, hv]
  simp [hfilter, updateManyStore, findManyByIds]

/-- Witness for the amended C1 at a concrete published entry. -/
theorem publishMany_allPublished_amended_witness :
    publishMany [{ id := JSVal.num 1, publishedAt := some 5 }] (fun _ => .ok ())
      [{ id := JSVal.num 1, publishedAt := some 5 }] 7 =
      { result := .ok (some 0)
        store := [{ id := JSVal.num 1, publishedAt := some 5 }]
        updatesIssued := [{ ids := [], publishedAt := some 7 }]
        events := [] } :=
  publishMany_allPublished_amended _ _ _ 7 (by decide) (by decide) (by decide)

/-- C2: if any entry of a non-empty batch fails schema validation, the
validation failure propagates out of `publishMany`, no bulk update is issued,
no event is emitted, and the store is untouched (all-or-nothing validation
gate before any write). -/
theorem publishMany_validationFailure_aborts (entities : List Entry)
    (validate : Entry → Except ValidationError Unit) (store : List Entry)
    (now : Nat) (hne : entities ≠ [])
    (hbad : ∃ e ∈ entities, isSuccess (validate e) = false) :
    ∃ err, publishMany entities validate store now =
      { result := .error err
        store := store
        updatesIssued := []
        events := [] } := by
  have hlen : ¬entities.length = 0 := by
    simpa [List.length_eq_zero] using hne
  obtain ⟨err, hv⟩ := validateAll_error validate entities hbad
  refine ⟨err, ?_⟩
  unfold publishMany
  rw [if_neg hlen, hv]

/-- Witness for C2 at a concrete batch whose single entry fails validation. -/
theorem publishMany_validationFailure_aborts_witness :
    ([({ id := JSVal.num 1 } : Entry)] ≠ []) ∧
    (∃ e ∈ [({ id := JSVal.num 1 } : Entry)],
      isSuccess ((fun _ => .error { message := "invalid" } :
        Entry → Except ValidationError Unit) e) = false) ∧
    ∃ err, publishMany [{ id := JSVal.num 1 }]
        (fun _ => .error { message := "invalid" }) [] 0 =
      { result := .error err
        store := []
        updatesIssued := []
        events := [] } :=
  ⟨by decide, by decide,
    publishMany_validationFailure_aborts _ _ _ 0 (by decide) (by decide)⟩

end EntityManager
